import Mathlib

/-!
Verification of the vrrb node orchestration core: a shallow embedding of
the event-routing and actor-orchestration subsystem (crates/node/src/node.rs,
crates/node/src/runtime_module.rs, crates/node/src/runtime/broadcast_module.rs,
crates/cli/src/commands/node/run.rs), together with theorems settling the
specification claims about startup, shutdown joins, event routing topics,
the broadcast module actor contract, and CLI option merging.

Async/await control flow is embedded as a deterministic trace semantics:
`Node.wait` returns the ordered list of observable actions it performs
(receiving the control signal, publishing Stop, awaiting each module handle,
awaiting the router, dropping the outbound sender) together with its result
and the final running status. Fallible awaits on `JoinHandle<Result<()>>`
are embedded as `JoinOutcome` values carried in each optional handle slot.
-/

namespace Vrrb

/-- Topic enumeration from vrrb_core::event_router, the closed set of
broadcast channels {Control, State, Network, Consensus, Storage}. -/
inductive Topic
  | Control
  | State
  | Network
  | Consensus
  | Storage
deriving DecidableEq, Repr

/-- Modelled from the spec: Event is an open-ended tagged union of domain
messages with a universal payload-free `Stop` variant used for coordinated
shutdown (vrrb_core::event_router::Event is outside src). `Other` stands
for the open family of non-Stop domain messages. -/
inductive Event
  | Stop
  | NoOp
  | Other (payload : Nat)
deriving DecidableEq, Repr

/-- DirectedEvent = (Topic, Event), the router's unit of transport. -/
def DirectedEvent : Type := Topic × Event

/-- RuntimeModuleState from crates/node/src/runtime_module.rs. -/
inductive RuntimeModuleState
  | Starting
  | Running
  | Stopped
  | Terminating
deriving DecidableEq, Repr

/-- Modelled from the spec: ActorState is the per-module lifecycle register
{Starting, Running, Terminating, Stopped} (the theater crate is outside src). -/
inductive ActorState
  | Starting
  | Running
  | Terminating
  | Stopped
deriving DecidableEq, Repr

/-- A socket address (ip, port); the embedding only needs identity. -/
structure SocketAddr where
  ip : Nat
  port : Nat
deriving DecidableEq, Repr

/-- A keypair; the embedding only needs identity. -/
structure KeyPair where
  public_key : Nat
  secret_key : Nat
deriving DecidableEq, Repr

/-- Modelled from the spec: node role enumeration (the primitives crate is
outside src; node.rs matches on NodeType::Bootstrap and run.rs defaults to
"full"). -/
inductive NodeType
  | Full
  | Bootstrap
  | Miner
  | Validator
deriving DecidableEq, Repr

/-- Modelled from the spec: NodeConfig is the immutable snapshot of
identity, network addresses, storage paths and keypair consumed at start
(vrrb_config is outside src); fields are the ones node.rs reads. -/
structure NodeConfig where
  id : String
  idx : Nat
  node_type : NodeType
  data_dir : String
  db_path : String
  udp_gossip_address : SocketAddr
  raptorq_gossip_address : SocketAddr
  jsonrpc_server_address : SocketAddr
  bootstrap_node_addresses : List SocketAddr
  keypair : KeyPair
deriving DecidableEq, Repr

/-- Modelled from the spec: the router registers topics with per-subscriber
buffer capacities before dispatch starts (vrrb_core::event_router is outside
src); `topics` records each add_topic call in order. -/
structure EventRouter where
  topics : List (Topic × Option Nat)
deriving DecidableEq, Repr

def EventRouter.new : EventRouter := ⟨[]⟩

/-- Modelled from the spec: add_topic registers a topic with a bounded
queue capacity per subscriber. -/
def EventRouter.add_topic (r : EventRouter) (t : Topic) (cap : Option Nat) : EventRouter :=
  ⟨r.topics ++ [(t, cap)]⟩

/-- Modelled from the spec: subscribe creates a new bounded queue bound to
the topic and returns its consuming end, failing if the topic was never
declared; the returned endpoint is represented by the topic's index. -/
def EventRouter.subscribe (r : EventRouter) (t : Topic) : Except String Nat :=
  if (r.topics.map Prod.fst).contains t then
    Except.ok ((r.topics.map Prod.fst).indexOf t)
  else
    Except.error "no such topic"

/-- Node::setup_event_routing_system from node.rs: declares the five topics
with their buffer capacities Control=1, State=1, Network=100, Consensus=100,
Storage=100, in that order. -/
def Node.setup_event_routing_system : EventRouter :=
  ((((EventRouter.new.add_topic Topic.Control (some 1)).add_topic
      Topic.State (some 1)).add_topic
      Topic.Network (some 100)).add_topic
      Topic.Consensus (some 100)).add_topic
      Topic.Storage (some 100)

/-- Outcome of awaiting a `JoinHandle<Result<()>>` with `handle.await??`:
the task joined cleanly and returned Ok, the join itself failed
(tokio JoinError, first `?`), or the task returned an Err (second `?`). -/
inductive JoinOutcome
  | ok
  | joinErr (msg : String)
  | taskErr (msg : String)
deriving DecidableEq, Repr

/-- `handle.await??` as a fallible operation: both a JoinError and a task
error surface as an error at the caller. -/
def awaitHandle : JoinOutcome → Except String Unit
  | JoinOutcome.ok => Except.ok ()
  | JoinOutcome.joinErr m => Except.error m
  | JoinOutcome.taskErr m => Except.error m

/-- The optional module slots stored on Node (node.rs lines 60-69). -/
inductive ModuleName
  | state
  | mempool
  | gossip
  | broadcastController
  | miner
  | txnValidator
  | jsonrpcServer
  | httpServer
deriving DecidableEq, Repr

/-- Observable actions of Node::wait, in execution order: receiving from
control_rx, sending (Control, Stop) on events_tx, awaiting a module's
JoinHandle, awaiting the event router's JoinHandle, and dropping the
outbound events sender (which happens when `self` goes out of scope). -/
inductive Action
  | recvControl
  | sendStop
  | awaitModule (m : ModuleName)
  | awaitRouter
  | dropEventsTx
deriving DecidableEq, Repr

/-- Node from node.rs: config, running status, the control receiver, the
outbound events sender, the keypair, the router task handle, and the eight
optional module task handles. The embedding replaces live channels and
tasks by their observable outcomes: `control_recv` is what the single
`control_rx.recv().await` in wait yields (none = channel closed),
`events_send_ok` is whether `events_tx.send` succeeds, `router_join` is
the router JoinHandle's outcome (none = Ok), and each module slot carries
the outcome its `handle.await??` would produce. -/
structure Node where
  config : NodeConfig
  running_status : RuntimeModuleState
  control_recv : Option Event
  events_send_ok : Bool
  keypair : KeyPair
  router_join : Option String
  state_handle : Option JoinOutcome
  mempool_handle : Option JoinOutcome
  gossip_handle : Option JoinOutcome
  broadcast_controller_handle : Option JoinOutcome
  miner_handle : Option JoinOutcome
  txn_validator_handle : Option JoinOutcome
  jsonrpc_server_handle : Option JoinOutcome
  http_server_handle : Option JoinOutcome
deriving DecidableEq, Repr

/-- Node::status from node.rs: returns a clone of running_status. -/
def Node.status (n : Node) : RuntimeModuleState := n.running_status

/-- The fixed join sequence of Node::wait (node.rs lines 159-187): the six
`if let Some(handle) = ... { handle.await?? }` blocks, in declared order.
Neither mempool_handle nor broadcast_controller_handle appears here. -/
def Node.joinOrder (n : Node) : List (ModuleName × Option JoinOutcome) :=
  [(ModuleName.state, n.state_handle),
   (ModuleName.miner, n.miner_handle),
   (ModuleName.gossip, n.gossip_handle),
   (ModuleName.txnValidator, n.txn_validator_handle),
   (ModuleName.jsonrpcServer, n.jsonrpc_server_handle),
   (ModuleName.httpServer, n.http_server_handle)]

/-- Runs the sequential `if let Some(handle) { handle.await?? }` blocks:
absent slots are skipped, a present slot is awaited, and an error makes
wait return immediately (the `?` operators), skipping everything after. -/
def runJoins : List (ModuleName × Option JoinOutcome) → List Action × Except String Unit
  | [] => ([], Except.ok ())
  | (nm, slot) :: rest =>
    match slot with
    | none => runJoins rest
    | some o =>
      match awaitHandle o with
      | Except.ok _ =>
        let r := runJoins rest
        (Action.awaitModule nm :: r.1, r.2)
      | Except.error e => ([Action.awaitModule nm], Except.error e)

/-- Result of Node::wait: the trace of actions performed, the returned
value, and the final running_status of the (consumed) node. -/
structure WaitResult where
  trace : List Action
  result : Except String Unit
  finalStatus : RuntimeModuleState
deriving Repr

/-- Node::wait from node.rs (lines 143-196): sets running_status to
Running, receives one control signal (erroring if the channel is closed),
publishes (Control, Stop), runs the fixed join sequence, awaits the router
handle, and sets running_status to Stopped. `events_tx` is a field of
`self`, so it is dropped when wait returns — after the router await on the
success path — which the trailing `dropEventsTx` action records on every
return path. -/
def Node.wait (n : Node) : WaitResult :=
  match n.control_recv with
  | none =>
    { trace := [Action.recvControl, Action.dropEventsTx],
      result := Except.error "failed to receive control signal",
      finalStatus := RuntimeModuleState.Running }
  | some _ =>
    if n.events_send_ok then
      match runJoins n.joinOrder with
      | (tr, Except.error e) =>
        { trace := Action.recvControl :: Action.sendStop :: (tr ++ [Action.dropEventsTx]),
          result := Except.error e,
          finalStatus := RuntimeModuleState.Running }
      | (tr, Except.ok _) =>
        match n.router_join with
        | some e =>
          { trace := Action.recvControl :: Action.sendStop ::
              (tr ++ [Action.awaitRouter, Action.dropEventsTx]),
            result := Except.error e,
            finalStatus := RuntimeModuleState.Running }
        | none =>
          { trace := Action.recvControl :: Action.sendStop ::
              (tr ++ [Action.awaitRouter, Action.dropEventsTx]),
            result := Except.ok (),
            finalStatus := RuntimeModuleState.Stopped }
    else
      { trace := [Action.recvControl, Action.sendStop, Action.dropEventsTx],
        result := Except.error "events channel closed",
        finalStatus := RuntimeModuleState.Running }

/-- Names of the present (Some) slots of a join sequence, in order. -/
def presentNames : List (ModuleName × Option JoinOutcome) → List ModuleName
  | [] => []
  | (_, none) :: rest => presentNames rest
  | (nm, some _) :: rest => nm :: presentNames rest

/-- Every present slot in the list carries a clean JoinOutcome.ok. -/
def allOk : List (ModuleName × Option JoinOutcome) → Bool
  | [] => true
  | (_, none) :: rest => allOk rest
  | (_, some o) :: rest => (o == JoinOutcome.ok) && allOk rest

theorem runJoins_allOk (l : List (ModuleName × Option JoinOutcome))
    (h : allOk l = true) :
    runJoins l = ((presentNames l).map Action.awaitModule, Except.ok ()) := by
  induction l with
  | nil => rfl
  | cons p rest ih =>
    obtain ⟨nm, slot⟩ := p
    cases slot with
    | none =>
      simp only [allOk] at h
      simp [runJoins, presentNames, ih h]
    | some o =>
      simp only [allOk, Bool.and_eq_true, beq_iff_eq] at h
      obtain ⟨ho, hrest⟩ := h
      subst ho
      simp [runJoins, awaitHandle, presentNames, ih hrest]

theorem runJoins_mem_names (l : List (ModuleName × Option JoinOutcome))
    (nm : ModuleName) (h : Action.awaitModule nm ∈ (runJoins l).1) :
    nm ∈ l.map Prod.fst := by
  induction l with
  | nil => simp [runJoins] at h
  | cons p rest ih =>
    obtain ⟨nm', slot⟩ := p
    cases slot with
    | none =>
      simp only [runJoins] at h
      simp [ih h]
    | some o =>
      cases ho : awaitHandle o with
      | ok _ =>
        simp only [runJoins, ho, List.mem_cons] at h
        rcases h with h | h
        · simp [Action.awaitModule.injEq] at h
          simp [h]
        · simp [ih h]
      | error e =>
        simp only [runJoins, ho, List.mem_cons, List.not_mem_nil, or_false] at h
        simp [Action.awaitModule.injEq] at h
        simp [h]

theorem runJoins_append_fail (l₁ : List (ModuleName × Option JoinOutcome))
    (nm : ModuleName) (o : JoinOutcome) (e : String)
    (l₂ : List (ModuleName × Option JoinOutcome))
    (h₁ : allOk l₁ = true) (ho : awaitHandle o = Except.error e) :
    runJoins (l₁ ++ (nm, some o) :: l₂) =
      ((presentNames l₁).map Action.awaitModule ++ [Action.awaitModule nm],
       Except.error e) := by
  induction l₁ with
  | nil => simp [runJoins, ho, presentNames]
  | cons p rest ih =>
    obtain ⟨nm', slot⟩ := p
    cases slot with
    | none =>
      simp only [allOk] at h₁
      simp [runJoins, presentNames, ih h₁]
    | some o' =>
      simp only [allOk, Bool.and_eq_true, beq_iff_eq] at h₁
      obtain ⟨ho', hrest⟩ := h₁
      subst ho'
      simp [runJoins, awaitHandle, presentNames, ih hrest]

/-- The tuple returned by setup_runtime_components (crates/node/src/runtime,
outside src): the possibly-amended config and the eight optional module
task handles, each slot carrying the outcome its eventual `await??` would
produce. Modelled from the spec: the external Module Bootstrapper returns
the set of ModuleHandles and a possibly-amended NodeConfig. -/
structure RuntimeComponents where
  updated_config : NodeConfig
  mempool_handle : Option JoinOutcome
  state_handle : Option JoinOutcome
  gossip_handle : Option JoinOutcome
  broadcast_controller_handle : Option JoinOutcome
  jsonrpc_server_handle : Option JoinOutcome
  txn_validator_handle : Option JoinOutcome
  miner_handle : Option JoinOutcome
  http_server_handle : Option JoinOutcome
deriving DecidableEq, Repr

/-- Observable phases of Node::start, in execution order. -/
inductive StartAction
  | buildRouter
  | subscribeTopics
  | setupComponents
  | spawnRouter
deriving DecidableEq, Repr

/-- The eight subscribe calls of Node::start (node.rs lines 85-92), in
order: Storage, Storage, Network, Network, Consensus, Consensus, Control,
Control, each propagated with `?`. -/
def subscribeAll (r : EventRouter) : List Topic → Except String Unit
  | [] => Except.ok ()
  | t :: ts =>
    match r.subscribe t with
    | Except.error e => Except.error e
    | Except.ok _ => subscribeAll r ts

/-- Node::start from node.rs (lines 74-141): clones the config, builds the
router with its five topics, subscribes the eight module receivers,
invokes setup_runtime_components (propagating its error with `?` before
anything else happens), spawns the router dispatch task only afterwards,
and returns a Node whose running_status is Stopped. The external inputs
are parameters: `control_recv` is the control receiver handed to start,
`setup` the outcome of setup_runtime_components, and `events_send_ok` /
`router_join` the runtime outcomes of the events channel and spawned
router task the returned Node will observe during wait. -/
def Node.start (config : NodeConfig) (control_recv : Option Event)
    (setup : Except String RuntimeComponents)
    (events_send_ok : Bool) (router_join : Option String) :
    List StartAction × Except String Node :=
  let keypair := config.keypair
  let event_router := Node.setup_event_routing_system
  match subscribeAll event_router
      [Topic.Storage, Topic.Storage, Topic.Network, Topic.Network,
       Topic.Consensus, Topic.Consensus, Topic.Control, Topic.Control] with
  | Except.error e => ([StartAction.buildRouter, StartAction.subscribeTopics], Except.error e)
  | Except.ok _ =>
    match setup with
    | Except.error e =>
      ([StartAction.buildRouter, StartAction.subscribeTopics, StartAction.setupComponents],
       Except.error e)
    | Except.ok comps =>
      ([StartAction.buildRouter, StartAction.subscribeTopics, StartAction.setupComponents,
        StartAction.spawnRouter],
       Except.ok
        { config := comps.updated_config
          running_status := RuntimeModuleState.Stopped
          control_recv := control_recv
          events_send_ok := events_send_ok
          keypair := keypair
          router_join := router_join
          state_handle := comps.state_handle
          mempool_handle := comps.mempool_handle
          gossip_handle := comps.gossip_handle
          broadcast_controller_handle := comps.broadcast_controller_handle
          miner_handle := comps.miner_handle
          txn_validator_handle := comps.txn_validator_handle
          jsonrpc_server_handle := comps.jsonrpc_server_handle
          http_server_handle := comps.http_server_handle })

/-- A network side effect of the broadcast module; its handle method
performs none, so traces of this type stay empty. -/
inductive NetworkOp
  | sendMessage (payload : Nat)
deriving DecidableEq, Repr

/-- BroadcastModule from runtime/broadcast_module.rs: id, outbound events
sender (identified by a tag), the vrrbdb read handle (identified by a
tag), the resolved local address, and the actor status. -/
structure BroadcastModule where
  id : String
  events_tx : Nat
  vrrbdb_read_handle : Nat
  addr : SocketAddr
  status : ActorState
deriving DecidableEq, Repr

/-- BroadcastModule::name. -/
def BroadcastModule.name (_m : BroadcastModule) : String := "BroadcastModule"

/-- BroadcastModule::new (broadcast_module.rs lines 50-68): constructing the
BroadcastEngine is fallible (binding the UDP gossip socket); its outcome is
the `engine` parameter carrying the resolved local address on success. A
bind failure propagates with `?` and no module is returned; on success the
module starts with status Stopped. -/
def BroadcastModule.new (engine : Except String SocketAddr)
    (id : String) (events_tx : Nat) (vrrbdb_read_handle : Nat) :
    Except String BroadcastModule :=
  match engine with
  | Except.error err => Except.error ("unable to setup broadcast engine: " ++ err)
  | Except.ok addr =>
    Except.ok
      { id := id
        events_tx := events_tx
        vrrbdb_read_handle := vrrbdb_read_handle
        addr := addr
        status := ActorState.Stopped }

/-- BroadcastModule's Handler::handle (broadcast_module.rs lines 97-106):
if the event is Stop, return Ok(Terminating); otherwise return Ok(Running).
The second component is the list of network operations performed, empty in
both branches (the non-Stop branch holds only a comment). -/
def BroadcastModule.handle (_m : BroadcastModule) (event : Event) :
    Except String ActorState × List NetworkOp :=
  if event = Event.Stop then
    (Except.ok ActorState.Terminating, [])
  else
    (Except.ok ActorState.Running, [])

/-- Modelled from the spec: parsing a node-type string (FromStr for
primitives::NodeType is outside src); recognised role names parse, anything
else is an error. -/
def parseNodeType : String → Option NodeType
  | "full" => some NodeType.Full
  | "bootstrap" => some NodeType.Bootstrap
  | "miner" => some NodeType.Miner
  | "validator" => some NodeType.Validator
  | _ => none

/-- RunOpts from cli/src/commands/node/run.rs (paths are embedded as
strings; `to_str().unwrap_or_default()` on a PathBuf is the identity
here). -/
structure RunOpts where
  dettached : Bool
  debug_config : Bool
  id : Option String
  idx : Option Nat
  node_type : String
  data_dir : String
  db_path : String
  udp_gossip_address : SocketAddr
  raptorq_gossip_address : SocketAddr
  http_api_address : SocketAddr
  jsonrpc_api_address : SocketAddr
  bootstrap : Bool
  bootstrap_node_addresses : Option (List SocketAddr)
  http_api_title : String
  http_api_version : String
  disable_networking : Bool
deriving DecidableEq, Repr

/-- RunOpts::merge (run.rs lines 184-239): keeps self's node_type when it
parses, self's non-empty paths and http strings, prefers other's
bootstrap_node_addresses when present, takes other's flags and addresses,
and always sets disable_networking to false (the literal on line 237). -/
def RunOpts.merge (self other : RunOpts) : RunOpts :=
  let node_type :=
    match parseNodeType self.node_type with
    | some _ => self.node_type
    | none => other.node_type
  let data_dir := if self.data_dir.isEmpty then other.data_dir else self.data_dir
  let db_path := if self.db_path.isEmpty then other.db_path else self.db_path
  let bootstrap_node_addresses :=
    if other.bootstrap_node_addresses.isNone then self.bootstrap_node_addresses
    else other.bootstrap_node_addresses
  let http_api_title :=
    if self.http_api_title.isEmpty then other.http_api_title else self.http_api_title
  let http_api_version :=
    if self.http_api_version.isEmpty then other.http_api_version else self.http_api_version
  { dettached := other.dettached
    debug_config := other.debug_config
    id := Option.or self.id other.id
    idx := Option.or self.idx other.idx
    node_type := node_type
    data_dir := data_dir
    db_path := db_path
    udp_gossip_address := other.udp_gossip_address
    raptorq_gossip_address := other.raptorq_gossip_address
    http_api_address := other.http_api_address
    jsonrpc_api_address := other.jsonrpc_api_address
    bootstrap := other.bootstrap
    bootstrap_node_addresses := bootstrap_node_addresses
    http_api_title := http_api_title
    http_api_version := http_api_version
    disable_networking := false }

/-! Concrete fixtures used to instantiate hypotheses and to exhibit
counterexamples. -/

def cfg0 : NodeConfig :=
  { id := "node-1"
    idx := 0
    node_type := NodeType.Full
    data_dir := "/data"
    db_path := "/db"
    udp_gossip_address := { ip := 127, port := 9000 }
    raptorq_gossip_address := { ip := 127, port := 9001 }
    jsonrpc_server_address := { ip := 127, port := 9293 }
    bootstrap_node_addresses := []
    keypair := { public_key := 1, secret_key := 2 } }

def baseNode : Node :=
  { config := cfg0
    running_status := RuntimeModuleState.Stopped
    control_recv := some Event.Stop
    events_send_ok := true
    keypair := cfg0.keypair
    router_join := none
    state_handle := none
    mempool_handle := none
    gossip_handle := none
    broadcast_controller_handle := none
    miner_handle := none
    txn_validator_handle := none
    jsonrpc_server_handle := none
    http_server_handle := none }

def nodeMixed : Node :=
  { baseNode with
    state_handle := some JoinOutcome.ok
    gossip_handle := some JoinOutcome.ok
    jsonrpc_server_handle := some JoinOutcome.ok
    http_server_handle := some JoinOutcome.ok }

def nodeAllPresent : Node :=
  { baseNode with
    state_handle := some JoinOutcome.ok
    mempool_handle := some JoinOutcome.ok
    gossip_handle := some JoinOutcome.ok
    broadcast_controller_handle := some JoinOutcome.ok
    miner_handle := some JoinOutcome.ok
    txn_validator_handle := some JoinOutcome.ok
    jsonrpc_server_handle := some JoinOutcome.ok
    http_server_handle := some JoinOutcome.ok }

def nodeFailState : Node :=
  { baseNode with
    state_handle := some (JoinOutcome.taskErr "state module failed")
    miner_handle := some JoinOutcome.ok
    gossip_handle := some JoinOutcome.ok }

def nodeClosedControl : Node :=
  { baseNode with control_recv := none }

def comps0 : RuntimeComponents :=
  { updated_config := cfg0
    mempool_handle := none
    state_handle := none
    gossip_handle := none
    broadcast_controller_handle := none
    jsonrpc_server_handle := none
    txn_validator_handle := none
    miner_handle := none
    http_server_handle := none }

def node5 : Node :=
  { config := cfg0
    running_status := RuntimeModuleState.Stopped
    control_recv := some Event.Stop
    events_send_ok := true
    keypair := cfg0.keypair
    router_join := none
    state_handle := none
    mempool_handle := none
    gossip_handle := none
    broadcast_controller_handle := none
    miner_handle := none
    txn_validator_handle := none
    jsonrpc_server_handle := none
    http_server_handle := none }

/-- C1: on a nominal shutdown (a stop signal arrives, the Stop publish
succeeds, every present module task joins cleanly, and the router joins
cleanly), Node::wait performs exactly: receive the control signal, publish
(Control, Stop), await the present module handles in the fixed declared
order state, miner, gossip, txn validator, JSON-RPC server, HTTP server —
deterministically skipping the None slots — and only after all of these
await the event-router task. -/
theorem wait_joins_in_fixed_order (n : Node) (ev : Event)
    (hc : n.control_recv = some ev) (hs : n.events_send_ok = true)
    (hok : allOk (Node.joinOrder n) = true) (hr : n.router_join = none) :
    Node.wait n =
      { trace := Action.recvControl :: Action.sendStop ::
          ((presentNames (Node.joinOrder n)).map Action.awaitModule ++
            [Action.awaitRouter, Action.dropEventsTx]),
        result := Except.ok (),
        finalStatus := RuntimeModuleState.Stopped } := by
  simp [Node.wait, hc, hs, hr, runJoins_allOk _ hok]

/-- Witness for C1: a node with state, gossip, JSON-RPC and HTTP handles
present and miner/validator absent joins exactly those four, in order,
then the router. -/
theorem wait_joins_in_fixed_order_witness :
    Node.wait nodeMixed =
      { trace := Action.recvControl :: Action.sendStop ::
          ((presentNames (Node.joinOrder nodeMixed)).map Action.awaitModule ++
            [Action.awaitRouter, Action.dropEventsTx]),
        result := Except.ok (),
        finalStatus := RuntimeModuleState.Stopped } :=
  wait_joins_in_fixed_order nodeMixed Event.Stop rfl rfl rfl rfl

theorem wait_trace_modules (n : Node) (nm : ModuleName)
    (h : Action.awaitModule nm ∈ (Node.wait n).trace) :
    nm ∈ (Node.joinOrder n).map Prod.fst := by
  apply runJoins_mem_names
  unfold Node.wait at h
  cases hc : n.control_recv with
  | none => simp [hc] at h
  | some ev =>
    simp only [hc] at h
    by_cases hs : n.events_send_ok = true
    · simp only [hs, if_true] at h
      rcases hrj : runJoins (Node.joinOrder n) with ⟨tr, r⟩
      rw [hrj] at h
      cases r with
      | error e =>
        simp only [List.mem_cons, List.mem_append, List.mem_singleton] at h
        simpa using h
      | ok u =>
        cases hrouter : n.router_join with
        | none =>
          rw [hrouter] at h
          simp only [List.mem_cons, List.mem_append, List.mem_singleton] at h
          simpa using h
        | some e =>
          rw [hrouter] at h
          simp only [List.mem_cons, List.mem_append, List.mem_singleton] at h
          simpa using h
    · simp [hs] at h

/-- C2 counterexample: a node on which every one of the eight optional
handles is present completes wait successfully, yet neither the mempool
handle nor the broadcast-controller handle is ever awaited. -/
theorem wait_leaves_mempool_unawaited_cex :
    nodeAllPresent.mempool_handle = some JoinOutcome.ok ∧
    nodeAllPresent.broadcast_controller_handle = some JoinOutcome.ok ∧
    (Node.wait nodeAllPresent).result = Except.ok () ∧
    Action.awaitModule ModuleName.mempool ∉ (Node.wait nodeAllPresent).trace ∧
    Action.awaitModule ModuleName.broadcastController ∉ (Node.wait nodeAllPresent).trace :=
  ⟨rfl, rfl, rfl, by decide, by decide⟩

/-- C2 (amended): Node::wait only ever awaits the six slots of its fixed
join sequence; the mempool handle and the broadcast-controller handle are
never awaited on any node and on any path through wait. -/
theorem wait_never_awaits_mempool_or_controller (n : Node) :
    Action.awaitModule ModuleName.mempool ∉ (Node.wait n).trace ∧
    Action.awaitModule ModuleName.broadcastController ∉ (Node.wait n).trace := by
  constructor
  · intro h
    have hmem := wait_trace_modules n ModuleName.mempool h
    simp [Node.joinOrder] at hmem
  · intro h
    have hmem := wait_trace_modules n ModuleName.broadcastController h
    simp [Node.joinOrder] at hmem

/-- C3 counterexample: when the state module's task completes with an
error, wait surfaces that error but the miner and gossip handles — both
present and clean — are never awaited, and neither is the router task:
the `?` operators return from wait at the first failed join. -/
theorem wait_skips_joins_after_error_cex :
    nodeFailState.miner_handle = some JoinOutcome.ok ∧
    nodeFailState.gossip_handle = some JoinOutcome.ok ∧
    (Node.wait nodeFailState).result = Except.error "state module failed" ∧
    Action.awaitModule ModuleName.miner ∉ (Node.wait nodeFailState).trace ∧
    Action.awaitModule ModuleName.gossip ∉ (Node.wait nodeFailState).trace ∧
    Action.awaitRouter ∉ (Node.wait nodeFailState).trace :=
  ⟨rfl, rfl, rfl, by decide, by decide, by decide⟩

/-- C3 (amended): if, in the fixed join order, every present handle before
some failing handle joins cleanly and that handle's await produces an
error, then wait returns that error immediately: the trace ends at the
failing module's await and none of the later handles, nor the router, is
awaited. -/
theorem wait_stops_at_first_failed_join (n : Node) (ev : Event)
    (l₁ l₂ : List (ModuleName × Option JoinOutcome)) (nm : ModuleName)
    (o : JoinOutcome) (e : String)
    (hc : n.control_recv = some ev) (hs : n.events_send_ok = true)
    (hsplit : Node.joinOrder n = l₁ ++ (nm, some o) :: l₂)
    (h₁ : allOk l₁ = true) (ho : awaitHandle o = Except.error e) :
    Node.wait n =
      { trace := Action.recvControl :: Action.sendStop ::
          ((presentNames l₁).map Action.awaitModule ++
            [Action.awaitModule nm, Action.dropEventsTx]),
        result := Except.error e,
        finalStatus := RuntimeModuleState.Running } := by
  have hrun := runJoins_append_fail l₁ nm o e l₂ h₁ ho
  rw [← hsplit] at hrun
  simp [Node.wait, hc, hs, hrun]

/-- Witness for the amended C3: the state module fails on nodeFailState
and wait stops right there. -/
theorem wait_stops_at_first_failed_join_witness :
    Node.wait nodeFailState =
      { trace := [Action.recvControl, Action.sendStop,
          Action.awaitModule ModuleName.state, Action.dropEventsTx],
        result := Except.error "state module failed",
        finalStatus := RuntimeModuleState.Running } :=
  wait_stops_at_first_failed_join nodeFailState Event.Stop []
    [(ModuleName.miner, some JoinOutcome.ok),
     (ModuleName.gossip, some JoinOutcome.ok),
     (ModuleName.txnValidator, none),
     (ModuleName.jsonrpcServer, none),
     (ModuleName.httpServer, none)]
    ModuleName.state (JoinOutcome.taskErr "state module failed") "state module failed"
    rfl rfl rfl rfl rfl

/-- C4: evaluating the code at a nominal shutdown shows wait awaits the
event-router task strictly before the outbound events sender is dropped
(the sender is a field of `self` and is only dropped when wait returns),
contradicting the claim that the drop happens first. -/
theorem wait_awaits_router_before_dropping_sender :
    (Node.wait baseNode).trace =
      [Action.recvControl, Action.sendStop, Action.awaitRouter, Action.dropEventsTx] ∧
    (Node.wait baseNode).trace.indexOf Action.awaitRouter <
      (Node.wait baseNode).trace.indexOf Action.dropEventsTx ∧
    ¬ ((Node.wait baseNode).trace.indexOf Action.dropEventsTx <
        (Node.wait baseNode).trace.indexOf Action.awaitRouter) :=
  ⟨rfl, by decide, by decide⟩

/-- C5 counterexample: a successful Node::start returns a node whose
status() is Stopped, not Running. -/
theorem start_status_not_running_cex :
    Except.map Node.status
        (Node.start cfg0 (some Event.Stop) (Except.ok comps0) true none).2 =
      Except.ok RuntimeModuleState.Stopped ∧
    RuntimeModuleState.Stopped ≠ RuntimeModuleState.Running :=
  ⟨rfl, by decide⟩

/-- C5 (amended): whenever Node::start returns Ok(node), the returned
node's status() reports Stopped; the status becomes Running only when wait
begins executing. -/
theorem start_returns_stopped_status (config : NodeConfig) (control_recv : Option Event)
    (setup : Except String RuntimeComponents) (events_send_ok : Bool)
    (router_join : Option String) (n : Node)
    (h : (Node.start config control_recv setup events_send_ok router_join).2 = Except.ok n) :
    n.status = RuntimeModuleState.Stopped := by
  cases setup with
  | error e =>
    rw [show (Node.start config control_recv (Except.error e) events_send_ok
        router_join).2 = Except.error e from rfl] at h
    exact Except.noConfusion h
  | ok comps =>
    have hm : Except.map Node.status
        ((Node.start config control_recv (Except.ok comps) events_send_ok
          router_join).2) = Except.ok RuntimeModuleState.Stopped := rfl
    rw [h] at hm
    simpa [Except.map] using hm

/-- Witness for the amended C5: starting with concrete inputs yields
node5, whose status is Stopped. -/
theorem start_returns_stopped_status_witness :
    node5.status = RuntimeModuleState.Stopped :=
  start_returns_stopped_status cfg0 (some Event.Stop) (Except.ok comps0) true none node5 rfl

/-- C6: when setup_runtime_components fails, Node::start returns that
error immediately: no Node value is produced and the router dispatch task
is never spawned (the spawnRouter phase is absent from start's trace). -/
theorem start_aborts_on_setup_error (config : NodeConfig) (control_recv : Option Event)
    (e : String) (events_send_ok : Bool) (router_join : Option String) :
    Node.start config control_recv (Except.error e) events_send_ok router_join =
      ([StartAction.buildRouter, StartAction.subscribeTopics, StartAction.setupComponents],
       Except.error e) ∧
    StartAction.spawnRouter ∉
      (Node.start config control_recv (Except.error e) events_send_ok router_join).1 := by
  refine ⟨rfl, ?_⟩
  rw [show (Node.start config control_recv (Except.error e) events_send_ok router_join).1 =
      [StartAction.buildRouter, StartAction.subscribeTopics, StartAction.setupComponents]
    from rfl]
  decide

/-- C7: the router configured by Node::start declares exactly the five
topics, in order, with capacities Control=1, State=1, Network=100,
Consensus=100, Storage=100. -/
theorem setup_event_routing_system_topics :
    Node.setup_event_routing_system.topics =
      [(Topic.Control, some 1), (Topic.State, some 1), (Topic.Network, some 100),
       (Topic.Consensus, some 100), (Topic.Storage, some 100)] := rfl

/-- C8: for every broadcast module and every event, handle returns
Ok(Terminating) exactly when the event is Stop and Ok(Running) otherwise,
and performs no network I/O in either branch. -/
theorem broadcast_handle_stop_contract (m : BroadcastModule) (event : Event) :
    (BroadcastModule.handle m event).1 =
      Except.ok (if event = Event.Stop then ActorState.Terminating else ActorState.Running) ∧
    (BroadcastModule.handle m event).2 = [] := by
  constructor <;> by_cases h : event = Event.Stop <;> simp [BroadcastModule.handle, h]

/-- C9: when the control channel is closed before any stop signal arrives,
Node::wait returns the "failed to receive control signal" error without
publishing (Control, Stop), without awaiting any module handle, and
without awaiting the router task. -/
theorem wait_errors_on_closed_control_channel (n : Node)
    (h : n.control_recv = none) :
    Node.wait n =
      { trace := [Action.recvControl, Action.dropEventsTx],
        result := Except.error "failed to receive control signal",
        finalStatus := RuntimeModuleState.Running } ∧
    Action.sendStop ∉ (Node.wait n).trace ∧
    (∀ nm, Action.awaitModule nm ∉ (Node.wait n).trace) ∧
    Action.awaitRouter ∉ (Node.wait n).trace := by
  have heq : Node.wait n =
      { trace := [Action.recvControl, Action.dropEventsTx],
        result := Except.error "failed to receive control signal",
        finalStatus := RuntimeModuleState.Running } := by
    simp [Node.wait, h]
  refine ⟨heq, ?_, ?_, ?_⟩
  · rw [heq]; decide
  · intro nm; rw [heq]; simp
  · rw [heq]; decide

/-- Witness for C9: a node whose control channel closed without a signal. -/
theorem wait_errors_on_closed_control_channel_witness :
    Node.wait nodeClosedControl =
      { trace := [Action.recvControl, Action.dropEventsTx],
        result := Except.error "failed to receive control signal",
        finalStatus := RuntimeModuleState.Running } ∧
    Action.sendStop ∉ (Node.wait nodeClosedControl).trace ∧
    (∀ nm, Action.awaitModule nm ∉ (Node.wait nodeClosedControl).trace) ∧
    Action.awaitRouter ∉ (Node.wait nodeClosedControl).trace :=
  wait_errors_on_closed_control_channel nodeClosedControl rfl

/-- C10: for every pair of RunOpts, the merged options have
disable_networking = false regardless of either input. -/
theorem merge_forces_disable_networking_false (a b : RunOpts) :
    (RunOpts.merge a b).disable_networking = false := rfl

end Vrrb
